import Mathlib

/-!
Verification of the aerleon policy front end (`aerleon/lib/policy.py`).

The definitions below are shallow embeddings of the functions in
`policy.py`: `Term.CheckAddressIsContained`, `Term.CheckPortIsContained`,
`Term.CheckProtocolIsContained`, `Term.CollapsePortList`, `Term.SanityCheck`,
`Term.FlattenAll`, `Term.__contains__`, `Term.__eq__`, `Policy.__eq__`,
`Policy._DetectShading`, `Policy._TranslateTerms` and the lexer error hook
`t_error`.  Python lists become `List`, `None`-able fields become `Option`,
exceptions become `Except`, and in-place mutation of `Term` objects becomes
explicit state passing (functions return the updated terms).

External collaborators (the `nacaddr` address library, the naming service
`DEFINITIONS`, the PLY lexing engine) are passed in as function parameters
or, where a concrete instance is needed, modelled from the spec.
-/

namespace Aerleon

/-! ## Sorting (Python `sorted`)

Python's `sorted` builtin, specialised to the element orders used in
`policy.py` (integers, strings, integer pairs, addresses).  We use a simple
insertion sort parametrised by a boolean `≤` test. -/

/-- Insert `a` in front of the first element `b` with `le a b = true`. -/
def insertLe (le : α → α → Bool) (a : α) : List α → List α
  | [] => [a]
  | b :: t => if le a b then a :: b :: t else b :: insertLe le a t

/-- Insertion sort with respect to the boolean order `le`.  Models Python
`sorted` for the (total) element orders appearing in the source. -/
def sortLe (le : α → α → Bool) : List α → List α
  | [] => []
  | a :: t => insertLe le a (sortLe le t)

/-- Lexicographic order on integer pairs: the order Python uses when sorting
a list of `(low, high)` port tuples. -/
def pairLe (a b : Nat × Nat) : Bool :=
  a.1 < b.1 || (a.1 = b.1 && a.2 ≤ b.2)

/-- Python `sorted` on a list of `(low, high)` port tuples. -/
def sortPairs (l : List (Nat × Nat)) : List (Nat × Nat) := sortLe pairLe l

/-- String order used for Python `sorted` on lists of strings (lexicographic
on code points; the precise order is irrelevant to the theorems below, which
only compare equal lists or identical sort keys). -/
def strLe (a b : String) : Bool := a ≤ b

/-- Python `sorted` on a list of strings. -/
def sortStr (l : List String) : List String := sortLe strLe l

/-- Python `sorted` on a list of integers. -/
def sortNat (l : List Nat) : List Nat := sortLe (fun a b => a ≤ b) l

/-! ## Addresses

`policy.py` stores addresses as `nacaddr`/`ipaddress` network objects; the
spec treats address arithmetic as an external collaborator.  We model a
network as an IP version together with the closed range of numeric
addresses it covers. -/

/-- A typed address object: IP version plus the closed numeric range
`[lo, hi]` of addresses covered by the network. -/
structure Addr where
  version : Nat
  lo : Nat
  hi : Nat
deriving DecidableEq, Repr

/-- Model of `ipaddress.*Network.subnet_of` on the range representation:
`a` is a subnet of `b` when the versions agree and `b`'s range encloses
`a`'s.  (`ipaddr ensures that version numbers match for inclusion.`) -/
def Addr.subnet_of (a b : Addr) : Bool :=
  a.version = b.version && b.lo ≤ a.lo && a.hi ≤ b.hi

/-- Order for Python `sorted` on address lists (lexicographic on the
representation; only used where the theorems compare identical inputs). -/
def addrLe (a b : Addr) : Bool :=
  a.version < b.version ||
    (a.version = b.version &&
      (a.lo < b.lo || (a.lo = b.lo && a.hi ≤ b.hi)))

/-- Python `sorted` on a list of addresses. -/
def sortAddr (l : List Addr) : List Addr := sortLe addrLe l

/-- Modelled from the spec: `nacaddr.AddressListExclude` (the address
library is not under `src/`; the spec describes flattening as "computing a
term's effective address set after subtracting its exclude lists").
Subtracting one range from another yields the 0, 1 or 2 remaining pieces;
versions must match for a subtraction to apply. -/
def rangeSubtract (a e : Addr) : List Addr :=
  if a.version = e.version ∧ e.lo ≤ a.hi ∧ a.lo ≤ e.hi then
    (if a.lo < e.lo then [⟨a.version, a.lo, e.lo - 1⟩] else []) ++
    (if e.hi < a.hi then [⟨a.version, e.hi + 1, a.hi⟩] else [])
  else [a]

/-- Modelled from the spec: subtract every exclude range from every include
range (`nacaddr.AddressListExclude` with `collapse_addrs=False`). -/
def AddressListExclude (incl excl : List Addr) : List Addr :=
  excl.foldl (fun acc e => acc.flatMap (fun a => rangeSubtract a e)) incl

/-! ## `Term.CheckAddressIsContained`, `CheckPortIsContained`,
`CheckProtocolIsContained` (policy.py:1471-1540)

Each source function is an early-return loop; a `for sub: if no sup
matches: return False` loop is the `all`/`any` combination below. -/

/-- `Term.CheckAddressIsContained(superset, subset)` (policy.py:1516):
empty superset returns `True`; then empty subset returns `False`; otherwise
every subset element must be a subnet of some superset element. -/
def CheckAddressIsContained (superset subset : List Addr) : Bool :=
  if superset.isEmpty then true
  else if subset.isEmpty then false
  else subset.all fun sub => superset.any fun sup => sub.subnet_of sup

/-- `Term.CheckPortIsContained(superset, subset)` (policy.py:1491):
empty superset returns `True`; then empty subset returns `False`; otherwise
every subset range must be enclosed by some superset range. -/
def CheckPortIsContained (superset subset : List (Nat × Nat)) : Bool :=
  if superset.isEmpty then true
  else if subset.isEmpty then false
  else subset.all fun sub => superset.any fun sup =>
    sup.1 ≤ sub.1 && sub.2 ≤ sup.2

/-- `Term.CheckProtocolIsContained(superset, subset)` (policy.py:1471):
empty superset returns `True`; then empty subset returns `False`; otherwise
set inclusion of `subset` in `superset`. -/
def CheckProtocolIsContained (superset subset : List String) : Bool :=
  if superset.isEmpty then true
  else if subset.isEmpty then false
  else subset.all fun p => superset.contains p

/-! ## `Term.CollapsePortList` (policy.py:1442-1469) -/

/-- The accumulation loop of `CollapsePortList`.  The Python loop appends to
`ret_ports` and rewrites `ret_ports[-1]`; we keep the accumulator reversed
so its head is `ret_ports[-1]`, and reverse on exit. -/
def collapseLoop : List (Nat × Nat) → List (Nat × Nat) → List (Nat × Nat)
  | acc, [] => acc.reverse
  | [], p :: rest => collapseLoop [p] rest
  | (l, h) :: accTail, (pl, ph) :: rest =>
    if h ≥ ph then
      -- (10, 20) and (12, 13) -> (10, 20)
      collapseLoop ((l, h) :: accTail) rest
    else if pl < h ∧ h < ph then
      -- (10, 20) and (15, 30) -> (10, 30)
      collapseLoop ((l, ph) :: accTail) rest
    else if h + 1 = pl then
      -- (10, 20) and (21, 30) -> (10, 30)
      collapseLoop ((l, ph) :: accTail) rest
    else
      -- (10, 20) and (22, 30) -> (10, 20), (22, 30)
      collapseLoop ((pl, ph) :: (l, h) :: accTail) rest

/-- `Term.CollapsePortList(ports)`: sort the `(low, high)` tuples, then run
the merge loop. -/
def CollapsePortList (ports : List (Nat × Nat)) : List (Nat × Nat) :=
  collapseLoop [] (sortPairs ports)

/-! ## Small string helpers (Python `int(...)`, `str.isnumeric`, `split`)

Defined over `String.toList` so that they reduce inside the kernel. -/

/-- Python `int(s)` on a decimal digit string. -/
def digitsToNat (s : String) : Nat :=
  s.toList.foldl (fun n c => n * 10 + (c.toNat - 48)) 0

/-- Python `str.isnumeric()` restricted to ASCII digit strings (the only
strings the policy lexer produces). -/
def isNumericStr (s : String) : Bool :=
  !s.toList.isEmpty && s.toList.all Char.isDigit

/-- Helper for `split('-')` on the character list. -/
def splitDashAux : List Char → List Char → List (List Char)
  | [], cur => [cur.reverse]
  | c :: rest, cur =>
    if c = '-' then cur.reverse :: splitDashAux rest []
    else splitDashAux rest (c :: cur)

/-- Python `s.split('-')`. -/
def splitDash (s : String) : List String :=
  (splitDashAux s.toList []).map fun cs => String.mk cs

/-- `[int(x) for x in s.split('-')]` for the digit-and-dash strings held in
the `fragment_offset` / `hop_limit` / `packet_length` fields. -/
def parseIntsDash (s : String) : List Nat :=
  (splitDash s).map digitsToNat

/-- Python list `<` (lexicographic) on integer lists, used for slice
comparisons such as `sfo[1:] < ofo[1:]`. -/
def listLtNat : List Nat → List Nat → Bool
  | [], [] => false
  | [], _ :: _ => true
  | _ :: _, [] => false
  | a :: xs, b :: ys => if a < b then true else if b < a then false else listLtNat xs ys

/-! ## The `Term` data model (policy.py:423-500)

One field per attribute of `Term.__init__`, with the same names except that
the four prefix-list fields `source_prefix`, `source_prefix_except`,
`destination_prefix`, `destination_prefix_except` are shortened to
`source_pfx`, `source_pfx_except`, `destination_pfx`,
`destination_pfx_except` (matching the lexer token names SPFX/DPFX).
`None`-able scalars are `Option`; the port fields hold the `(low, high)`
pairs the naming service resolves them to. -/

structure Term where
  name : String := ""
  action : List String := []
  address : List Addr := []
  address_exclude : List Addr := []
  restrict_address_family : Option String := none
  comment : List String := []
  counter : Option String := none
  expiration : Option Nat := none
  destination_address : List Addr := []
  destination_address_exclude : List Addr := []
  destination_port : List (Nat × Nat) := []
  destination_pfx : List String := []
  filter_term : Option String := none
  forwarding_class : List String := []
  forwarding_class_except : List String := []
  logging : List String := []
  log_limit : Option (String × String) := none
  log_name : Option String := none
  loss_priority : Option String := none
  option : List String := []
  owner : Option String := none
  policer : Option String := none
  port : List (Nat × Nat) := []
  precedence : List Nat := []
  protocol : List String := []
  protocol_except : List String := []
  qos : Option String := none
  pan_application : List String := []
  routing_instance : Option String := none
  source_address : List Addr := []
  source_address_exclude : List Addr := []
  source_port : List (Nat × Nat) := []
  source_pfx : List String := []
  ttl : Option Nat := none
  verbatim : List String := []
  packet_length : Option String := none
  fragment_offset : Option String := none
  hop_limit : Option String := none
  icmp_type : List String := []
  icmp_code : List Nat := []
  ether_type : List String := []
  traffic_class_count : Option String := none
  traffic_type : List String := []
  translated : Bool := false
  dscp_set : Option String := none
  dscp_match : List String := []
  dscp_except : List String := []
  next_ip : Option String := none
  flexible_match_range : List (String × String) := []
  source_pfx_except : List String := []
  destination_pfx_except : List String := []
  inactive : Bool := false
  encapsulate : Option String := none
  port_mirror : Option String := none
  destination_zone : List String := []
  source_zone : List String := []
  vpn : Option (String × Option String) := none
  source_tag : List String := []
  destination_tag : List String := []
  priority : Option Nat := none
  source_interface : Option String := none
  destination_interface : Option String := none
  platform : List String := []
  platform_exclude : List String := []
  target_resources : List String := []
  target_service_accounts : List String := []
  timeout : Option Nat := none
  flattened : Bool := false
  flattened_addr : Option (List Addr) := none
  flattened_saddr : Option (List Addr) := none
  flattened_daddr : Option (List Addr) := none
  stateless_reply : Bool := false
deriving DecidableEq, Repr

instance : Inhabited Term := ⟨{}⟩

/-! ## `Term.FlattenAll` (policy.py:1027-1064)

`__contains__` calls `FlattenAll()` with the default `mutate=True`, so the
flattened lists are also written back into the address fields whenever the
corresponding exclude list is non-empty.  The external
`nacaddr.AddressListExclude` is the parameter `ex`. -/

/-- `Term.FlattenAll(mutate=True)`: set `flattened`; with no excludes, cache
the three address lists unchanged; otherwise subtract each non-empty exclude
list and (because `mutate` is true) overwrite the matching address field. -/
def FlattenAllM (ex : List Addr → List Addr → List Addr) (t : Term) : Term :=
  let t := { t with flattened := true }
  if t.source_address_exclude = [] ∧ t.destination_address_exclude = [] ∧
      t.address_exclude = [] then
    { t with flattened_saddr := some t.source_address,
             flattened_daddr := some t.destination_address,
             flattened_addr := some t.address }
  else
    let t : Term := if t.source_address_exclude ≠ [] then
        let fs := ex t.source_address t.source_address_exclude
        { t with flattened_saddr := some fs, source_address := fs }
      else t
    let t : Term := if t.destination_address_exclude ≠ [] then
        let fd := ex t.destination_address t.destination_address_exclude
        { t with flattened_daddr := some fd, destination_address := fd }
      else t
    let t : Term := if t.address_exclude ≠ [] then
        let fa := ex t.address t.address_exclude
        { t with flattened_addr := some fa, address := fa }
      else t
    t

/-- Python truthiness of the `flattened_*` fields: `None` and `[]` are both
falsy, so `CheckAddressIsContained` sees `None` as an empty list. -/
def optAddrs (o : Option (List Addr)) : List Addr := o.getD []

/-! ## `Term.__contains__` (policy.py:506-701)

The method is a chain of early-return checks.  Everything before the
`FlattenAll` calls reads only un-flattened state and returns the original
objects (`containsPre`); everything after reads flattened state
(`containsPost`).  The six `sorted(...) is not sorted(...)` comparisons at
the end compare the identity of two freshly allocated list objects. -/

/-- CPython `sorted(xs) is sorted(ys)`: each call to `sorted` allocates a
fresh list object, so the identity test is `False` whatever the contents
(and `sorted(xs) is not sorted(ys)` is always `True`).  The sorted
arguments are kept at the call sites for direct correspondence with the
source text. -/
def pyIsSortedLists (_x _y : List α) : Bool := false

/-- The checks of `__contains__` before the `FlattenAll` calls: verbatim
equality (policy.py:508) and the protocol / protocol-except cases
(policy.py:515-535). -/
def containsPre (a b : Term) : Bool :=
  (if a.verbatim ≠ [] ∨ b.verbatim ≠ [] then sortStr a.verbatim = sortStr b.verbatim
   else true) &&
  (if a.protocol ≠ [] then
    (if b.protocol ≠ [] then CheckProtocolIsContained b.protocol a.protocol
     -- `other` has protocol-except, or neither: not contained either way
     else false)
   else if a.protocol_except ≠ [] then
    (if b.protocol_except ≠ [] then
       CheckProtocolIsContained a.protocol_except b.protocol_except
     else if b.protocol ≠ [] then
       b.protocol.all fun proto => ¬ a.protocol_except.contains proto
     else false)
   else true)

/-- The `fragment_offset` check (policy.py:642-650). -/
def fragOffsetCheck : Option String → Option String → Bool
  | none, _ => true
  | some sf, other =>
    let sfo := sortNat (parseIntsDash sf)
    match other with
    | some o =>
      let ofo := sortNat (parseIntsDash o)
      ¬ (ofo.headD 0 < sfo.headD 0 ∨ listLtNat (sfo.drop 1) (ofo.drop 1))
    | none => false

/-- The `hop_limit` check (policy.py:651-663). -/
def hopLimitCheck : Option String → Option String → Bool
  | none, _ => true
  | some sh, other =>
    match other with
    | some o =>
      let shl := parseIntsDash sh
      let ohl := parseIntsDash o
      if shl.headD 0 < ohl.headD 0 then false
      else if shl.drop 1 ≠ [] ∧ ohl.drop 1 ≠ [] then ¬ (ohl.headD 0 < shl.headD 0)
      else true
    | none => false

/-- The `packet_length` check (policy.py:664-672). -/
def packetLengthCheck : Option String → Option String → Bool
  | none, _ => true
  | some sp, other =>
    match other with
    | some o =>
      let spl := parseIntsDash sp
      let opl := parseIntsDash o
      ¬ (opl.headD 0 < spl.headD 0 ∨
         listLtNat (sortNat (opl.drop 1)) (sortNat (spl.drop 1)))
    | none => false

/-- The checks of `__contains__` from the flattened-address comparisons
(policy.py:545) to the trailing zone checks (policy.py:696); `a` and `b`
are the (already flattened) `self` and `other`. -/
def containsPost (a b : Term) : Bool :=
  -- flat address against each of other's flat address lists (policy.py:545)
  (CheckAddressIsContained (optAddrs a.flattened_addr) (optAddrs b.flattened_addr) ||
   CheckAddressIsContained (optAddrs a.flattened_addr) (optAddrs b.flattened_saddr) ||
   CheckAddressIsContained (optAddrs a.flattened_addr) (optAddrs b.flattened_daddr)) &&
  -- other's flat address against self saddr and daddr (policy.py:553)
  (CheckAddressIsContained (optAddrs b.flattened_addr) (optAddrs a.flattened_saddr) &&
   CheckAddressIsContained (optAddrs b.flattened_addr) (optAddrs a.flattened_daddr)) &&
  -- basic saddr/daddr checks (policy.py:562)
  CheckAddressIsContained (optAddrs a.flattened_saddr) (optAddrs b.flattened_saddr) &&
  CheckAddressIsContained (optAddrs a.flattened_daddr) (optAddrs b.flattened_daddr) &&
  -- ports: generic `port` may be satisfied by any of other's port fields
  (if a.port ≠ [] then
    CheckPortIsContained a.port b.port ||
    CheckPortIsContained a.port b.source_port ||
    CheckPortIsContained a.port b.destination_port
   else true) &&
  CheckPortIsContained a.source_port b.source_port &&
  CheckPortIsContained a.destination_port b.destination_port &&
  -- prefix lists: exact sorted-list equality (policy.py:584)
  (if a.source_pfx ≠ [] then sortStr a.source_pfx = sortStr b.source_pfx else true) &&
  (if a.source_pfx_except ≠ [] then
    sortStr a.source_pfx_except = sortStr b.source_pfx_except else true) &&
  (if a.destination_pfx ≠ [] then
    sortStr a.destination_pfx = sortStr b.destination_pfx else true) &&
  (if a.destination_pfx_except ≠ [] then
    sortStr a.destination_pfx_except = sortStr b.destination_pfx_except else true) &&
  -- source and destination tags (policy.py:598)
  (if a.source_tag ≠ [] then
    sortStr a.source_tag = sortStr b.source_tag ∧
    sortStr a.destination_tag = sortStr b.destination_tag
   else true) &&
  -- precedence: subset check, with the `elif other.precedence` early False
  (if a.precedence ≠ [] then
    b.precedence ≠ [] ∧ b.precedence.all fun p => a.precedence.contains p
   else b.precedence = []) &&
  -- options: same shape as precedence (policy.py:614)
  (if a.option ≠ [] then
    b.option ≠ [] ∧ b.option.all fun opt => a.option.contains opt
   else b.option = []) &&
  -- forwarding-class / -except: subset check, no `elif` clause (policy.py:623)
  (if a.forwarding_class ≠ [] then
    b.forwarding_class ≠ [] ∧ b.forwarding_class.all fun fc => a.forwarding_class.contains fc
   else true) &&
  (if a.forwarding_class_except ≠ [] then
    b.forwarding_class_except ≠ [] ∧
      b.forwarding_class_except.all fun fc => a.forwarding_class_except.contains fc
   else true) &&
  -- next-ip and encapsulate: presence-implies-presence (policy.py:636)
  (if a.next_ip.isSome then b.next_ip.isSome else true) &&
  (if a.encapsulate.isSome then b.encapsulate.isSome else true) &&
  fragOffsetCheck a.fragment_offset b.fragment_offset &&
  hopLimitCheck a.hop_limit b.hop_limit &&
  packetLengthCheck a.packet_length b.packet_length &&
  (if a.port_mirror.isSome then b.port_mirror.isSome else true) &&
  -- `sorted(...) is not sorted(...)` identity comparisons (policy.py:676-698)
  (if a.icmp_type ≠ [] then
    pyIsSortedLists (sortStr a.icmp_type) (sortStr b.icmp_type) else true) &&
  (if a.icmp_code ≠ [] then
    pyIsSortedLists (sortNat a.icmp_code) (sortNat b.icmp_code) else true) &&
  (if a.platform ≠ [] then
    pyIsSortedLists (sortStr a.platform) (sortStr b.platform) else true) &&
  (if a.platform_exclude ≠ [] then
    pyIsSortedLists (sortStr a.platform_exclude) (sortStr b.platform_exclude) else true) &&
  (if a.source_zone ≠ [] then
    pyIsSortedLists (sortStr a.source_zone) (sortStr b.source_zone) else true) &&
  (if a.destination_zone ≠ [] then
    pyIsSortedLists (sortStr a.destination_zone) (sortStr b.destination_zone) else true)

/-- `Term.__contains__(self=a, other=b)`.  Python mutates both objects via
`FlattenAll`; we return the result together with the updated `a` and `b`.
The early returns before the `FlattenAll` calls hand back the original
objects; the later ones the flattened objects. -/
def containsTerm (ex : List Addr → List Addr → List Addr) (a b : Term) :
    Bool × Term × Term :=
  if ¬ containsPre a b then (false, a, b)
  else
    let a := if ¬ a.flattened then FlattenAllM ex a else a
    let b := if ¬ b.flattened then FlattenAllM ex b else b
    (containsPost a b, a, b)

/-! ## `Policy._DetectShading` (policy.py:271-286)

For each term, every prior term is tested with `__contains__`; a hit whose
prior term's action does not include `next` produces one warning.  The
containment test mutates the stored `Term` objects (flattening), so the
state of the term list is threaded through the two loops.  Warnings are
returned as `(shaded term name, shading term name)` pairs; flattening never
touches `name`, so the names are read off the pre-comparison objects. -/

def DetectShading (ex : List Addr → List Addr → List Addr) (terms : List Term) :
    List (String × String) × List Term :=
  (List.range terms.length).foldl
    (fun st i =>
      (List.range i).foldl
        (fun st j =>
          let prior := st.2.getD j {}
          let cur := st.2.getD i {}
          let r := containsTerm ex prior cur
          let ts := (st.2.set j r.2.1).set i r.2.2
          if r.1 ∧ ¬ prior.action.contains "next" then
            (st.1 ++ [(cur.name, prior.name)], ts)
          else (st.1, ts))
        st)
    ([], terms)

/-! ## `Term.__eq__` (policy.py:822-977) and `Policy.__eq__` (policy.py:288)

`__eq__` compares a fixed set of fields (most after `sorted`); every field
not mentioned below is ignored by it — in particular `name`, `comment`,
`owner`, `routing_instance`, `counter`, `priority`, `dscp_set`,
`dscp_match`, `dscp_except`, `restrict_address_family`, `address_exclude`
(the generic one; the source/destination excludes are compared),
`target_resources`, `target_service_accounts` and `loss_priority`.
The source compares `qos` and `pan_application` twice; the repeats are kept. -/

def termEq (a b : Term) : Bool :=
  decide (sortStr a.action = sortStr b.action) &&
  decide (sortAddr a.address = sortAddr b.address) &&
  decide (sortAddr a.source_address = sortAddr b.source_address) &&
  decide (sortAddr a.source_address_exclude = sortAddr b.source_address_exclude) &&
  decide (sortAddr a.destination_address = sortAddr b.destination_address) &&
  decide (sortAddr a.destination_address_exclude = sortAddr b.destination_address_exclude) &&
  decide (sortStr a.source_pfx = sortStr b.source_pfx) &&
  decide (sortStr a.source_pfx_except = sortStr b.source_pfx_except) &&
  decide (sortStr a.destination_pfx = sortStr b.destination_pfx) &&
  decide (sortStr a.destination_pfx_except = sortStr b.destination_pfx_except) &&
  decide (sortPairs a.port = sortPairs b.port) &&
  decide (sortPairs a.source_port = sortPairs b.source_port) &&
  decide (sortPairs a.destination_port = sortPairs b.destination_port) &&
  decide (sortStr a.protocol = sortStr b.protocol) &&
  decide (sortStr a.protocol_except = sortStr b.protocol_except) &&
  decide (sortStr a.option = sortStr b.option) &&
  decide (a.qos = b.qos) &&
  decide (sortStr a.pan_application = sortStr b.pan_application) &&
  decide (a.verbatim = b.verbatim) &&
  decide (a.policer = b.policer) &&
  decide (a.source_interface = b.source_interface) &&
  decide (a.destination_interface = b.destination_interface) &&
  decide (sortStr a.source_tag = sortStr b.source_tag) &&
  decide (sortStr a.destination_tag = sortStr b.destination_tag) &&
  decide (a.ttl = b.ttl) &&
  decide (sortStr a.logging = sortStr b.logging) &&
  decide (a.log_limit = b.log_limit) &&
  decide (a.qos = b.qos) &&
  decide (sortStr a.pan_application = sortStr b.pan_application) &&
  decide (a.packet_length = b.packet_length) &&
  decide (a.fragment_offset = b.fragment_offset) &&
  decide (a.hop_limit = b.hop_limit) &&
  decide (sortStr a.icmp_type = sortStr b.icmp_type) &&
  decide (sortNat a.icmp_code = sortNat b.icmp_code) &&
  decide (sortStr a.ether_type = sortStr b.ether_type) &&
  decide (sortStr a.traffic_type = sortStr b.traffic_type) &&
  decide (a.vpn = b.vpn) &&
  decide (sortStr a.platform = sortStr b.platform) &&
  decide (sortStr a.platform_exclude = sortStr b.platform_exclude) &&
  decide (a.timeout = b.timeout) &&
  decide (a.precedence = b.precedence) &&
  decide (a.filter_term = b.filter_term) &&
  decide (sortStr a.forwarding_class = sortStr b.forwarding_class) &&
  decide (sortStr a.forwarding_class_except = sortStr b.forwarding_class_except) &&
  decide (a.next_ip = b.next_ip) &&
  decide (a.encapsulate = b.encapsulate) &&
  decide (a.flexible_match_range = b.flexible_match_range) &&
  decide (a.port_mirror = b.port_mirror) &&
  decide (sortStr a.source_zone = sortStr b.source_zone) &&
  decide (sortStr a.destination_zone = sortStr b.destination_zone)

/-- `Target`: platform plus trailing options (policy.py:1753). -/
structure Target where
  platform : String
  options : List String
deriving DecidableEq, Repr

/-- `Header` (policy.py:1638). -/
structure Header where
  target : List Target := []
  comment : List String := []
  apply_groups : List String := []
  apply_groups_except : List String := []
deriving DecidableEq, Repr

/-- Element-wise list equality with a custom element test: Python `==` on
lists dispatches to the elements' `__eq__`. -/
def listEqWith (f : α → α → Bool) : List α → List α → Bool
  | [], [] => true
  | a :: xs, b :: ys => f a b && listEqWith f xs ys
  | _, _ => false

/-- `Target.__eq__` (policy.py:1766): compares platform and options. -/
def targetEq (a b : Target) : Bool :=
  decide (a.platform = b.platform) && decide (a.options = b.options)

/-- `Header.__eq__` (policy.py:1724): compares target, comment,
apply_groups and apply_groups_except. -/
def headerEq (a b : Header) : Bool :=
  listEqWith targetEq a.target b.target &&
  decide (a.comment = b.comment) &&
  decide (a.apply_groups = b.apply_groups) &&
  decide (a.apply_groups_except = b.apply_groups_except)

/-- `Policy`: an ordered list of `(header, terms)` filters (policy.py:185). -/
structure Policy where
  filters : List (Header × List Term)

/-- `Policy.__eq__` (policy.py:288): `self.filters == obj.filters`, which
Python evaluates element-wise — tuple equality of the header (via
`Header.__eq__`) and the term list (element-wise `Term.__eq__`). -/
def policyEq (p q : Policy) : Bool :=
  listEqWith (fun f g => headerEq f.1 g.1 && listEqWith termEq f.2 g.2)
    p.filters q.filters

/-! ## `Term.SanityCheck` (policy.py:1260-1394) and its tables -/

/-- The error taxonomy raised by the embedded functions.  `KeyError` is the
Python builtin raised by the `self.ICMP_CODE[type_name]` dictionary lookup
when the type has no entry. -/
inductive PolicyError where
  | ParseError
  | TermNoActionError
  | InvalidTermActionError
  | MixedPortandNonPortProtos
  | TermPortProtocolError
  | TermProtocolEtherTypeError
  | ICMPCodeError
  | KeyError
  | TermInvalidIcmpType
  | InvalidTermTTLValue
  | InvalidNumericProtoValue
  | NoTermsError
deriving DecidableEq, Repr

/-- `PROTOS_WITH_PORTS` (policy.py:39). -/
def PROTOS_WITH_PORTS : List String := ["tcp", "udp", "udplite", "sctp"]

/-- `_MAX_TTL` (policy.py:55). -/
def MAX_TTL : Nat := 255

/-- `_MIN_TTL` (policy.py:56). -/
def MIN_TTL : Nat := 0

/-- `Term.ICMP_TYPE[4]` (policy.py:357): IPv4 icmp-type names and values. -/
def ICMP_TYPE_4 : List (String × Nat) :=
  [("echo-reply", 0), ("unreachable", 3), ("source-quench", 4), ("redirect", 5),
   ("alternate-address", 6), ("echo-request", 8), ("router-advertisement", 9),
   ("router-solicitation", 10), ("time-exceeded", 11), ("parameter-problem", 12),
   ("timestamp-request", 13), ("timestamp-reply", 14), ("information-request", 15),
   ("information-reply", 16), ("mask-request", 17), ("mask-reply", 18),
   ("conversion-error", 31), ("mobile-redirect", 32)]

/-- `Term.ICMP_TYPE[6]` (policy.py:377): IPv6 icmp-type names and values. -/
def ICMP_TYPE_6 : List (String × Nat) :=
  [("destination-unreachable", 1), ("packet-too-big", 2), ("time-exceeded", 3),
   ("parameter-problem", 4), ("echo-request", 128), ("echo-reply", 129),
   ("multicast-listener-query", 130), ("multicast-listener-report", 131),
   ("multicast-listener-done", 132), ("router-solicit", 133),
   ("router-advertisement", 134), ("neighbor-solicit", 135),
   ("neighbor-advertisement", 136), ("redirect-message", 137),
   ("router-renumbering", 138), ("icmp-node-information-query", 139),
   ("icmp-node-information-response", 140),
   ("inverse-neighbor-discovery-solicitation", 141),
   ("inverse-neighbor-discovery-advertisement", 142),
   ("version-2-multicast-listener-report", 143),
   ("home-agent-address-discovery-request", 144),
   ("home-agent-address-discovery-reply", 145),
   ("mobile-prefix-solicitation", 146), ("mobile-prefix-advertisement", 147),
   ("certification-path-solicitation", 148),
   ("certification-path-advertisement", 149),
   ("multicast-router-advertisement", 151),
   ("multicast-router-solicitation", 152),
   ("multicast-router-termination", 153)]

/-- `Term.ICMP_CODE` (policy.py:409): the per-type valid code sets.  Note
that many icmp-type names (`echo-request` among them) have no entry. -/
def ICMP_CODE_TABLE : List (String × List Nat) :=
  [("unreachable", [0, 1, 2, 3, 4, 5, 6, 7, 8, 9, 10, 11, 12, 13, 14, 15]),
   ("redirect", [0, 1, 2, 3]),
   ("router-advertisement", [0, 16]),
   ("time-exceeded", [0, 1]),
   ("destination-unreachable", [0, 1, 2, 3, 4, 5, 6, 7]),
   ("parameter-problem", [0, 1, 2, 3]),
   ("router-renumbering", [0, 1, 255]),
   ("icmp-node-information-query", [0, 1, 2]),
   ("icmp-node-information-response", [0, 1, 2])]

/-- `protos_no_ports` (policy.py:1321): the term protocols that do not
carry ports (a list standing for the Python set comprehension). -/
def protosNoPorts (t : Term) : List String :=
  t.protocol.filter fun p => ¬ PROTOS_WITH_PORTS.contains p

/-- `set(self.protocol) - protos_no_ports` (policy.py:1325): the term
protocols that do carry ports. -/
def protosWithPortsOf (t : Term) : List String :=
  t.protocol.filter fun p => PROTOS_WITH_PORTS.contains p

/-- Final checks of `SanityCheck`: icmp-type validity (policy.py:1376), TTL
bounds (policy.py:1383) and numeric protocol range (policy.py:1389). -/
def sanityFinal (t : Term) : Except PolicyError Unit :=
  if t.icmp_type.any (fun ty =>
      ¬ (ICMP_TYPE_4.lookup ty).isSome ∧ ¬ (ICMP_TYPE_6.lookup ty).isSome) then
    .error .TermInvalidIcmpType
  else if t.ttl.getD 0 ≠ 0 ∧
      ¬ (MIN_TTL ≤ t.ttl.getD 0 ∧ t.ttl.getD 0 ≤ MAX_TTL) then
    -- `if self.ttl:` — both `None` and a TTL of 0 are falsy and skip the
    -- bounds check, so the guard reads the value with default 0
    .error .InvalidTermTTLValue
  else if t.protocol.any (fun p => isNumericStr p ∧ 255 < digitsToNat p) then
    -- `int(proto) < 0` cannot hold for a digit string
    .error .InvalidNumericProtoValue
  else .ok ()

/-- The icmp-code block of `SanityCheck` (policy.py:1360-1375): requires
exactly one icmp-type; looks the type up in `ICMP_CODE` (a missing key is a
Python `KeyError`); requires every code to be in the type's set. -/
def sanityIcmpCode (t : Term) : Except PolicyError Unit :=
  if t.icmp_code ≠ [] then
    match t.icmp_type with
    | [ty] =>
      match ICMP_CODE_TABLE.lookup ty with
      | none => .error .KeyError
      | some valid =>
        if (t.icmp_code.filter fun code => ¬ valid.contains code) ≠ [] then
          .error .ICMPCodeError
        else sanityFinal t
    | _ => .error .ICMPCodeError
  else sanityFinal t

/-- The ether-type exclusivity check (policy.py:1340) followed by the rest
of `SanityCheck`. -/
def sanityRest (t : Term) : Except PolicyError Unit :=
  if t.ether_type ≠ [] ∧
      (t.protocol ≠ [] ∨ t.address ≠ [] ∨ t.destination_address ≠ [] ∨
       t.destination_address_exclude ≠ [] ∨ t.destination_port ≠ [] ∨
       t.destination_pfx ≠ [] ∨ t.destination_pfx_except ≠ [] ∨
       t.source_address ≠ [] ∨ t.source_address_exclude ≠ [] ∨
       t.source_port ≠ [] ∨ t.source_pfx ≠ [] ∨ t.source_pfx_except ≠ []) then
    .error .TermProtocolEtherTypeError
  else sanityIcmpCode t

/-- `Term.SanityCheck` (policy.py:1260): verbatim exclusivity, action
presence, filter-term/action exclusivity, the port/protocol compatibility
check, then the common tail (`sanityRest`). -/
def SanityCheck (t : Term) : Except PolicyError Unit :=
  if t.verbatim ≠ [] then
    if t.action ≠ [] ∨ t.source_port ≠ [] ∨ t.destination_port ≠ [] ∨
        t.port ≠ [] ∨ t.protocol ≠ [] ∨ t.option ≠ [] then
      .error .ParseError
    else sanityRest t
  else
    if t.action = [] ∧ t.routing_instance = none ∧ t.next_ip = none ∧
        t.encapsulate = none ∧ t.filter_term = none ∧ t.port_mirror = none then
      .error .TermNoActionError
    else if t.filter_term ≠ none ∧ t.action ≠ [] then
      .error .InvalidTermActionError
    else if protosNoPorts t ≠ [] ∧
        (t.source_port ≠ [] ∨ t.destination_port ≠ [] ∨ t.port ≠ []) then
      if protosWithPortsOf t ≠ [] then
        -- some protocols support ports and some do not
        .error .MixedPortandNonPortProtos
      else
        .error .TermPortProtocolError
    else sanityRest t

/-! ## `TranslatePorts`, `Term.AddressCleanup`, `Policy._TranslateTerms`
(policy.py:147-181, 1396-1440, 214-247)

The naming service (`DEFINITIONS.GetServiceByProto`) and the `nacaddr`
collapse/sort primitives are external collaborators, passed in through
`TranslateEnv`.  In the source the un-translated port fields hold service
names; the collaborator is keyed on the stored entry. -/

structure TranslateEnv where
  /-- `DEFINITIONS.GetServiceByProto(port, proto)`. -/
  svc : (Nat × Nat) → String → List String
  /-- `nacaddr.CollapseAddrList(addresses, complement_addresses)`. -/
  collapseAddrList : List Addr → List Addr → List Addr
  /-- `nacaddr.SortAddrList(addresses)`. -/
  sortAddrList : List Addr → List Addr
  /-- `nacaddr.CollapseAddrListPreserveTokens(addresses)`. -/
  collapsePreserve : List Addr → List Addr
  /-- the `_OPTIMIZE` flag. -/
  optimize : Bool := true
  /-- the `_NeedsAddressBook()` result. -/
  addressbook : Bool := false

/-- `TranslatePorts(ports, protocols, term_name)` (policy.py:147): for every
protocol and every port entry, resolve the service and parse each returned
`N` or `N-M` string into a `(low, high)` pair.  (The warning for an
undefined service is only logged and produces no entries.) -/
def TranslatePorts (svc : (Nat × Nat) → String → List String)
    (ports : List (Nat × Nat)) (protocols : List String) : List (Nat × Nat) :=
  protocols.flatMap fun proto =>
    ports.flatMap fun port =>
      (svc port proto).map fun s =>
        match splitDash s with
        | [p0] => (digitsToNat p0, digitsToNat p0)
        | p0 :: p1 :: _ => (digitsToNat p0, digitsToNat p1)
        | [] => (0, 0)

/-- `Term.AddressCleanup(optimize, addressbook)` (policy.py:1396): collapse
or sort each non-empty address field, then collapse each non-empty port
field.  `None` complements are passed as `[]`. -/
def AddressCleanup (env : TranslateEnv) (t : Term) : Term :=
  let cleanup := fun (addresses complement : List Addr) =>
    if ¬ env.optimize then env.sortAddrList addresses
    else if env.addressbook then env.collapsePreserve addresses
    else env.collapseAddrList addresses complement
  let t : Term := if t.address ≠ [] then
      { t with address := cleanup t.address [] } else t
  let t : Term := if t.source_address ≠ [] then
      { t with source_address := cleanup t.source_address t.source_address_exclude }
    else t
  let t : Term := if t.source_address_exclude ≠ [] then
      { t with source_address_exclude :=
          cleanup t.source_address_exclude t.source_address }
    else t
  let t : Term := if t.destination_address ≠ [] then
      { t with destination_address :=
          cleanup t.destination_address t.destination_address_exclude }
    else t
  let t : Term := if t.destination_address_exclude ≠ [] then
      { t with destination_address_exclude :=
          cleanup t.destination_address_exclude t.destination_address }
    else t
  let t : Term := if t.port ≠ [] then
      { t with port := CollapsePortList t.port } else t
  let t : Term := if t.source_port ≠ [] then
      { t with source_port := CollapsePortList t.source_port } else t
  let t : Term := if t.destination_port ≠ [] then
      { t with destination_port := CollapsePortList t.destination_port } else t
  t

/-- The per-term body of `Policy._TranslateTerms` (policy.py:218-247): a
term already marked `translated` is skipped unchanged (`continue`);
otherwise its port fields are resolved (an empty result is a
`TermPortProtocolError`), addresses and ports are cleaned up,
`SanityCheck` runs, and the term is marked `translated`. -/
def translateTerm (env : TranslateEnv) (t : Term) : Except PolicyError Term :=
  if t.translated then .ok t
  else do
    let t1 : Term ← if t.port ≠ [] then
        let p := TranslatePorts env.svc t.port t.protocol
        if p = [] then .error .TermPortProtocolError
        else .ok { t with port := p }
      else .ok t
    let t2 : Term ← if t1.source_port ≠ [] then
        let p := TranslatePorts env.svc t1.source_port t1.protocol
        if p = [] then .error .TermPortProtocolError
        else .ok { t1 with source_port := p }
      else .ok t1
    let t3 : Term ← if t2.destination_port ≠ [] then
        let p := TranslatePorts env.svc t2.destination_port t2.protocol
        if p = [] then .error .TermPortProtocolError
        else .ok { t2 with destination_port := p }
      else .ok t2
    let t4 := AddressCleanup env t3
    let _ ← SanityCheck t4
    .ok { t4 with translated := true }

/-- `Policy._TranslateTerms(terms)` (policy.py:214): an empty list is a
`NoTermsError`; otherwise each term is translated in order. -/
def translateTerms (env : TranslateEnv) (terms : List Term) :
    Except PolicyError (List Term) :=
  if terms = [] then .error .NoTermsError
  else terms.mapM (translateTerm env)

/-! ## The lexer error hook `t_error` (policy.py:2132-2134)

`t_error` prints `Illegal character '<c>' on line <n>` and calls
`t.lexer.skip(1)`: the offending character is skipped and scanning
continues; nothing is raised.  The surrounding token loop is the PLY
engine (an external library): at each position the rule set either
matches a token or calls `t_error`, honouring its skip count. -/

/-- `t_error(t)`: report `(t.value[0], t.lineno)` — the data of the printed
message — and skip one character.  Returns the report and skip count. -/
def t_error (c : Char) (lineno : Nat) : (Char × Nat) × Nat :=
  ((c, lineno), 1)

/-- The PLY token loop (external engine, modelled from its documented
behaviour): `m input` yields the next token with the number of extra
characters consumed beyond the first and the newlines crossed, or `none`
when no rule matches, in which case `t_error` runs and its skip count is
honoured.  Returns the token list and the reported illegal characters. -/
def lexLoop (m : List Char → Option (String × Nat × Nat)) :
    List Char → Nat → List String × List (Char × Nat)
  | [], _ => ([], [])
  | c :: rest, line =>
    match m (c :: rest) with
    | some (tok, extra, dl) =>
      let r := lexLoop m (rest.drop extra) (line + dl)
      (tok :: r.1, r.2)
    | none =>
      let e := t_error c line
      let r := lexLoop m (rest.drop (e.2 - 1)) line
      (r.1, e.1 :: r.2)
termination_by l _ => l.length
decreasing_by
  all_goals simp [List.length_drop]; omega

/-! ## Concrete inputs used by the witnesses and counterexamples -/

/-- A lexer rule set for the lexing counterexample: the character `a` is
the only recognized token. -/
def demoMatch : List Char → Option (String × Nat × Nat)
  | 'a' :: _ => some ("A", 0, 0)
  | _ => none

/-- Two identical terms carrying a non-empty `icmp_type`. -/
def termIcmpA : Term := { icmp_type := ["echo-request"] }

/-- Identical to `termIcmpA`. -/
def termIcmpB : Term := { icmp_type := ["echo-request"] }

/-- A term whose source-address excludes the lower half of its
source-address range. -/
def termWithExclude : Term :=
  { source_address := [⟨4, 0, 255⟩], source_address_exclude := [⟨4, 0, 127⟩] }

/-- Spec example: `icmp-type: echo-request` with `icmp-code: 5`. -/
def termEchoCode5 : Term :=
  { action := ["accept"], icmp_type := ["echo-request"], icmp_code := [5] }

/-- A term mixing a port-bearing and a non-port-bearing protocol with a
declared port. -/
def termMixedProtos : Term :=
  { action := ["accept"], protocol := ["icmp", "tcp"], port := [(80, 80)] }

/-- Spec example: `protocol: icmp` with `port: 80`. -/
def termIcmpPort : Term :=
  { action := ["accept"], protocol := ["icmp"], port := [(80, 80)] }

/-- A port-bearing-only term with a declared port. -/
def termTcpPort : Term :=
  { action := ["accept"], protocol := ["tcp"], port := [(80, 80)] }

/-- A term already marked `translated`. -/
def termTranslated : Term := { translated := true }

/-- A concrete `TranslateEnv` (identity collaborators). -/
def envId : TranslateEnv :=
  { svc := fun _ _ => [], collapseAddrList := fun a _ => a,
    sortAddrList := fun a => a, collapsePreserve := fun a => a }

/-! ## Specification-side predicates used to state the claims -/

/-- The set of ports covered by a list of `(low, high)` ranges. -/
def portsCover (L : List (Nat × Nat)) (x : Nat) : Prop :=
  ∃ p ∈ L, p.1 ≤ x ∧ x ≤ p.2

/-- A term carrying no address-exclude lists. -/
def noExcludes (t : Term) : Prop :=
  t.address_exclude = [] ∧ t.source_address_exclude = [] ∧
    t.destination_address_exclude = []

/-- Two term states agreeing on the `address`, `source_address` and
`destination_address` fields. -/
def sameAddresses (s u : Term) : Prop :=
  s.address = u.address ∧ s.source_address = u.source_address ∧
    s.destination_address = u.destination_address

/-- The non-mergeable relation that `CollapsePortList` leaves between two
consecutive output ranges: the second ends strictly higher, starts at or
after the first ends, is not contiguous with it, and starts no lower. -/
def noMerge (c₁ c₂ : Nat × Nat) : Prop :=
  c₁.1 ≤ c₂.1 ∧ c₁.2 < c₂.2 ∧ c₁.2 ≤ c₂.1 ∧ c₁.2 + 1 ≠ c₂.1

/-- `t` with every field that `Term.__eq__` ignores replaced by an
arbitrary new value: `name`, `comment`, `owner`, `routing_instance`,
`counter`, `priority`, `dscp_set`, `dscp_match`, `dscp_except`,
`restrict_address_family`, `address_exclude` (the generic one),
`target_resources`, `target_service_accounts` and `loss_priority`. -/
def replaceIgnoredFields (t : Term) (n : String) (cm : List String)
    (ow ri ct : Option String) (pr : Option Nat) (ds : Option String)
    (dm de : List String) (raf : Option String) (ae : List Addr)
    (tr tsa : List String) (lp : Option String) : Term :=
  { t with
    name := n
    comment := cm
    owner := ow
    routing_instance := ri
    counter := ct
    priority := pr
    dscp_set := ds
    dscp_match := dm
    dscp_except := de
    restrict_address_family := raf
    address_exclude := ae
    target_resources := tr
    target_service_accounts := tsa
    loss_priority := lp }

/-! # Theorems -/

/-! ## C1: `CheckAddressIsContained` on empty lists -/

/-- C1, counterexample.  The claim says `CheckAddressIsContained(A, B)` is
false when `A` is empty and `B` is not, and true (vacuously) when `B` is
empty; the source (policy.py:1526-1529) does the opposite: an empty
superset returns `True` immediately, and an empty subset against a
non-empty superset returns `False`. -/
theorem c1_counterexample :
    CheckAddressIsContained [] [⟨4, 0, 255⟩] = true ∧
    CheckAddressIsContained [⟨4, 0, 255⟩] [] = false := by
  decide

/-- C1, amended: `CheckAddressIsContained(A, B)` returns true iff `A` is
empty, or `B` is non-empty and every element of `B` is a sub-network of
some element of `A`; in particular an empty `A` yields true regardless of
`B`, and an empty `B` against a non-empty `A` yields false. -/
theorem c1_amended (A B : List Addr) :
    CheckAddressIsContained A B = true ↔
      (A = [] ∨ (B ≠ [] ∧ ∀ b ∈ B, ∃ a ∈ A, b.subnet_of a = true)) := by
  rcases A with _ | ⟨a, A⟩
  · simp [CheckAddressIsContained]
  · rcases B with _ | ⟨b, B⟩
    · simp [CheckAddressIsContained]
    · simp [CheckAddressIsContained, List.all_eq_true, List.any_eq_true]

/-! ## C2: the `sorted(...) is not sorted(...)` field checks -/

/-- C2: in the source the icmp-type / icmp-code / platform /
platform-exclude / source-zone / destination-zone checks of `__contains__`
(policy.py:676-698) compare `sorted(self.x) is not sorted(other.x)` —
object identity of two freshly allocated lists, which never holds — so a
term with a non-empty value in any of these fields contains nothing.  The
evaluation below shows two terms with identical non-empty `icmp_type`
failing containment, while the same pair with the field emptied (all other
fields equal) is contained. -/
theorem c2_theorem :
    (containsTerm AddressListExclude termIcmpA termIcmpB).1 = false ∧
    (containsTerm AddressListExclude { termIcmpA with icmp_type := [] }
        { termIcmpB with icmp_type := [] }).1 = true := by
  decide

/-! ## C3: mutation performed by the shading pass -/

/-- C3, counterexample.  Shading analysis is not mutation-free: the
containment test calls `FlattenAll()` with `mutate=True`
(policy.py:538-541, 1047-1052), so a term carrying a source-address
exclude has its `source_address` field overwritten with the
exclude-subtracted list. -/
theorem c3_counterexample :
    termWithExclude.source_address = [⟨4, 0, 255⟩] ∧
    ((DetectShading AddressListExclude
        [termWithExclude, {}]).2.getD 0 {}).source_address = [⟨4, 128, 255⟩] := by
  decide

/-! ## C3 continued: what the shading pass leaves unchanged -/

/-- `sameAddresses` is reflexive. -/
theorem sameAddresses_refl (t : Term) : sameAddresses t t :=
  ⟨rfl, rfl, rfl⟩

/-- `sameAddresses` is transitive. -/
theorem sameAddresses_trans {a b c : Term} (h₁ : sameAddresses a b)
    (h₂ : sameAddresses b c) : sameAddresses a c :=
  ⟨h₁.1.trans h₂.1, h₁.2.1.trans h₂.2.1, h₁.2.2.trans h₂.2.2⟩

/-- On a term with no exclude lists, `FlattenAll` only sets `flattened` and
caches the three address lists; the address fields are untouched. -/
theorem flattenAllM_noExcludes (ex : List Addr → List Addr → List Addr)
    (t : Term) (h : noExcludes t) :
    FlattenAllM ex t =
      { t with flattened := true,
               flattened_saddr := some t.source_address,
               flattened_daddr := some t.destination_address,
               flattened_addr := some t.address } := by
  obtain ⟨h1, h2, h3⟩ := h
  simp [FlattenAllM, h1, h2, h3]

/-- Flattening a term with no excludes preserves its address fields and
its (empty) exclude lists. -/
theorem flattenAllM_preserves (ex : List Addr → List Addr → List Addr)
    (t : Term) (h : noExcludes t) :
    sameAddresses (FlattenAllM ex t) t ∧ noExcludes (FlattenAllM ex t) := by
  rw [flattenAllM_noExcludes ex t h]
  exact ⟨⟨rfl, rfl, rfl⟩, h⟩

/-- Each term returned by `containsTerm` is either the input object or its
flattened version. -/
theorem containsTerm_state (ex : List Addr → List Addr → List Addr)
    (a b : Term) :
    ((containsTerm ex a b).2.1 = a ∨ (containsTerm ex a b).2.1 = FlattenAllM ex a) ∧
    ((containsTerm ex a b).2.2 = b ∨ (containsTerm ex a b).2.2 = FlattenAllM ex b) := by
  unfold containsTerm
  split_ifs <;> simp_all

/-- For exclude-free inputs, `containsTerm` preserves the address fields
and the (empty) exclude lists of both terms. -/
theorem containsTerm_preserves (ex : List Addr → List Addr → List Addr)
    (a b : Term) (ha : noExcludes a) (hb : noExcludes b) :
    (sameAddresses (containsTerm ex a b).2.1 a ∧ noExcludes (containsTerm ex a b).2.1) ∧
    (sameAddresses (containsTerm ex a b).2.2 b ∧ noExcludes (containsTerm ex a b).2.2) := by
  obtain ⟨h1, h2⟩ := containsTerm_state ex a b
  constructor
  · rcases h1 with h | h <;> rw [h]
    · exact ⟨sameAddresses_refl a, ha⟩
    · exact flattenAllM_preserves ex a ha
  · rcases h2 with h | h <;> rw [h]
    · exact ⟨sameAddresses_refl b, hb⟩
    · exact flattenAllM_preserves ex b hb

/-- `getD` after `set`. -/
theorem getD_set_general {α : Type _} (l : List α) (m k : Nat) (x d : α) :
    (l.set m x).getD k d = if m = k ∧ m < l.length then x else l.getD k d := by
  by_cases h1 : m = k
  · subst h1
    by_cases h2 : m < l.length
    · simp [List.getD_eq_getElem?_getD, List.getElem?_set, h2]
    · simp [List.getD_eq_getElem?_getD, List.getElem?_set, h2,
        List.getElem?_eq_none (Nat.le_of_not_lt h2)]
  · simp [List.getD_eq_getElem?_getD, List.getElem?_set, h1]

/-- A property preserved by every step of a fold is preserved by the
fold. -/
theorem foldl_preserve {σ β : Type _} (Q : σ → Prop) (f : σ → β → σ) :
    ∀ (l : List β) (s : σ), (∀ s b, Q s → Q (f s b)) → Q s → Q (l.foldl f s) := by
  intro l
  induction l with
  | nil => exact fun s _ hs => hs
  | cons b l ih => exact fun s hf hs => ih (f s b) hf (hf s b hs)

/-- C3, amended: the shading pass emits warnings and flattens terms as a
side effect; on a term list in which no term carries an address-exclude
list, every term keeps its `address`, `source_address` and
`destination_address` fields (terms with excludes are rewritten, as the
counterexample shows). -/
theorem c3_amended (ex : List Addr → List Addr → List Addr)
    (terms : List Term) (h : ∀ t ∈ terms, noExcludes t) :
    (DetectShading ex terms).2.length = terms.length ∧
    ∀ k, sameAddresses ((DetectShading ex terms).2.getD k {}) (terms.getD k {}) := by
  have hQ : (DetectShading ex terms).2.length = terms.length ∧
      ∀ k, sameAddresses ((DetectShading ex terms).2.getD k {}) (terms.getD k {}) ∧
        noExcludes ((DetectShading ex terms).2.getD k {}) := by
    unfold DetectShading
    refine foldl_preserve
      (fun st : List (String × String) × List Term =>
        st.2.length = terms.length ∧
        ∀ k, sameAddresses (st.2.getD k {}) (terms.getD k {}) ∧
          noExcludes (st.2.getD k {})) _ _ _ ?_ ?_
    · -- the outer loop body is an inner fold, preserved step by step
      intro s i hs
      refine foldl_preserve
        (fun st : List (String × String) × List Term =>
          st.2.length = terms.length ∧
          ∀ k, sameAddresses (st.2.getD k {}) (terms.getD k {}) ∧
            noExcludes (st.2.getD k {})) _ _ _ ?_ hs
      intro st j hst
      have hcur := hst.2
      have hpres := containsTerm_preserves ex (st.2.getD j {}) (st.2.getD i {})
        (hcur j).2 (hcur i).2
      have hts : ∀ k,
          sameAddresses ((((st.2.set j
              (containsTerm ex (st.2.getD j {}) (st.2.getD i {})).2.1).set i
              (containsTerm ex (st.2.getD j {}) (st.2.getD i {})).2.2)).getD k {})
            (terms.getD k {}) ∧
          noExcludes ((((st.2.set j
              (containsTerm ex (st.2.getD j {}) (st.2.getD i {})).2.1).set i
              (containsTerm ex (st.2.getD j {}) (st.2.getD i {})).2.2)).getD k {}) := by
        intro k
        rw [getD_set_general, getD_set_general]
        split_ifs with hik hjk
        · exact ⟨sameAddresses_trans hpres.2.1 (hik.1 ▸ (hcur i).1), hpres.2.2⟩
        · exact ⟨sameAddresses_trans hpres.1.1 (hjk.1 ▸ (hcur j).1), hpres.1.2⟩
        · exact hcur k
      constructor
      · dsimp only
        split_ifs <;> simp [List.length_set, hst.1]
      · dsimp only
        split_ifs <;> exact hts
    · exact ⟨rfl, fun k => by
        refine ⟨sameAddresses_refl _, ?_⟩
        by_cases hk : k < terms.length
        · have : terms.getD k {} ∈ terms := by
            simp only [List.getD_eq_getElem?_getD, List.getElem?_eq_getElem hk,
              Option.getD_some]
            exact List.getElem_mem hk
          exact h _ this
        · rw [List.getD_eq_getElem?_getD, List.getElem?_eq_none (Nat.le_of_not_lt hk)]
          exact ⟨rfl, rfl, rfl⟩⟩
  exact ⟨hQ.1, fun k => (hQ.2 k).1⟩

/-- C3, witness: the amended theorem applied to a two-term exclude-free
list. -/
theorem c3_witness :
    (∀ t ∈ [termIcmpA, termIcmpB], noExcludes t) ∧
    ∀ k, sameAddresses
      ((DetectShading AddressListExclude [termIcmpA, termIcmpB]).2.getD k {})
      ([termIcmpA, termIcmpB].getD k {}) :=
  ⟨by intro t ht; fin_cases ht <;> exact ⟨rfl, rfl, rfl⟩,
   (c3_amended AddressListExclude [termIcmpA, termIcmpB]
     (by intro t ht; fin_cases ht <;> exact ⟨rfl, rfl, rfl⟩)).2⟩

/-! ## C6: the icmp-code check -/

/-- C6, counterexample.  A term with `icmp-type: echo-request` and
`icmp-code: 5` fails `SanityCheck`, but with a Python `KeyError` from the
`self.ICMP_CODE[type_name]` lookup (policy.py:1369) — `echo-request` has
no entry in `ICMP_CODE` — not with `ICMPCodeError` as the claim states. -/
theorem c6_counterexample :
    SanityCheck termEchoCode5 = .error .KeyError ∧
    (Except.error PolicyError.KeyError : Except PolicyError Unit) ≠
      .error .ICMPCodeError := by
  exact ⟨rfl, by simp⟩

/-- The final checks never produce an icmp-code error. -/
theorem sanityFinal_not_icmpCode (t : Term) :
    sanityFinal t ≠ .error .ICMPCodeError ∧ sanityFinal t ≠ .error .KeyError := by
  unfold sanityFinal
  split_ifs <;> exact ⟨by simp, by simp⟩

/-- C6, amended: for a term whose earlier checks pass (no verbatim, an
action, no filter-term, no ports, no ether-type) and whose icmp-code list
is non-empty, `SanityCheck` fails with `ICMPCodeError` when the number of
icmp-types differs from one, or when the single type has an `ICMP_CODE`
entry and some code is outside it; when the single icmp-type has no
`ICMP_CODE` entry it fails with an uncaught Python `KeyError` instead; and
it raises neither of those errors when the single type has an entry
containing every code. -/
theorem c6_amended (t : Term) (hv : t.verbatim = []) (ha : t.action ≠ [])
    (hf : t.filter_term = none) (hp : t.port = []) (hsp : t.source_port = [])
    (hdp : t.destination_port = []) (he : t.ether_type = [])
    (hc : t.icmp_code ≠ []) :
    (t.icmp_type.length ≠ 1 → SanityCheck t = .error .ICMPCodeError) ∧
    (∀ ty, t.icmp_type = [ty] → ICMP_CODE_TABLE.lookup ty = none →
      SanityCheck t = .error .KeyError) ∧
    (∀ ty valid, t.icmp_type = [ty] → ICMP_CODE_TABLE.lookup ty = some valid →
      (∃ code ∈ t.icmp_code, ¬ valid.contains code) →
      SanityCheck t = .error .ICMPCodeError) ∧
    (∀ ty valid, t.icmp_type = [ty] → ICMP_CODE_TABLE.lookup ty = some valid →
      (∀ code ∈ t.icmp_code, valid.contains code) →
      SanityCheck t ≠ .error .ICMPCodeError ∧ SanityCheck t ≠ .error .KeyError) := by
  have hrest : SanityCheck t = sanityIcmpCode t := by
    simp [SanityCheck, sanityRest, hv, ha, hf, hp, hsp, hdp, he]
  have hstep : ∀ ty, t.icmp_type = [ty] → ∀ o, ICMP_CODE_TABLE.lookup ty = o →
      sanityIcmpCode t =
        match o with
        | none => .error .KeyError
        | some valid =>
          if (t.icmp_code.filter fun code => ¬ valid.contains code) ≠ [] then
            .error .ICMPCodeError
          else sanityFinal t := by
    intro ty hty o hlook
    unfold sanityIcmpCode
    rw [if_pos hc, hty]
    show (match ICMP_CODE_TABLE.lookup ty with
          | none => Except.error PolicyError.KeyError
          | some valid =>
            if (t.icmp_code.filter fun code => ¬ valid.contains code) ≠ [] then
              Except.error PolicyError.ICMPCodeError
            else sanityFinal t) = _
    rw [hlook]
  refine ⟨?_, ?_, ?_, ?_⟩
  · intro hlen
    rw [hrest]
    unfold sanityIcmpCode
    rw [if_pos hc]
    rcases htyp : t.icmp_type with _ | ⟨ty, _ | ⟨ty2, rest⟩⟩
    · rfl
    · exact absurd (by simp [htyp]) hlen
    · rfl
  · intro ty hty hlook
    rw [hrest, hstep ty hty none hlook]
  · intro ty valid hty hlook hbad
    have hfil : (t.icmp_code.filter fun code => ¬ valid.contains code) ≠ [] := by
      rw [Ne, List.filter_eq_nil_iff]
      push_neg
      obtain ⟨code, hc1, hc2⟩ := hbad
      exact ⟨code, hc1, by simpa using hc2⟩
    rw [hrest, hstep ty hty (some valid) hlook]
    show (if (t.icmp_code.filter fun code => ¬ valid.contains code) ≠ [] then
            Except.error PolicyError.ICMPCodeError else sanityFinal t) = _
    exact if_pos hfil
  · intro ty valid hty hlook hgood
    have hfil : (t.icmp_code.filter fun code => ¬ valid.contains code) = [] := by
      rw [List.filter_eq_nil_iff]
      intro code hcode
      simpa using hgood code hcode
    rw [hrest, hstep ty hty (some valid) hlook]
    show (if (t.icmp_code.filter fun code => ¬ valid.contains code) ≠ [] then
            Except.error PolicyError.ICMPCodeError else sanityFinal t) ≠ _ ∧
         (if (t.icmp_code.filter fun code => ¬ valid.contains code) ≠ [] then
            Except.error PolicyError.ICMPCodeError else sanityFinal t) ≠ _
    rw [if_neg (not_not.mpr hfil)]
    exact sanityFinal_not_icmpCode t

/-- C6, witness: the amended theorem applied to the spec example term
(`echo-request` with code 5): its single icmp-type has no `ICMP_CODE`
entry, so `SanityCheck` fails with `KeyError`. -/
theorem c6_witness :
    termEchoCode5.icmp_code ≠ [] ∧
    SanityCheck termEchoCode5 = .error .KeyError :=
  ⟨by decide,
   (c6_amended termEchoCode5 rfl (by decide) rfl rfl rfl rfl rfl
      (by decide)).2.1 "echo-request" rfl rfl⟩

/-! ## C7: port / protocol compatibility -/

/-- The final checks never produce a port/protocol error. -/
theorem sanityFinal_not_port (t : Term) :
    sanityFinal t ≠ .error .MixedPortandNonPortProtos ∧
    sanityFinal t ≠ .error .TermPortProtocolError := by
  unfold sanityFinal
  split_ifs <;> exact ⟨by simp, by simp⟩

/-- The icmp-code check never produces a port/protocol error. -/
theorem sanityIcmpCode_not_port (t : Term) :
    sanityIcmpCode t ≠ .error .MixedPortandNonPortProtos ∧
    sanityIcmpCode t ≠ .error .TermPortProtocolError := by
  unfold sanityIcmpCode
  split_ifs
  · split
    · split
      · exact ⟨by simp, by simp⟩
      · split_ifs
        · exact ⟨by simp, by simp⟩
        · exact sanityFinal_not_port t
    · exact ⟨by simp, by simp⟩
  · exact sanityFinal_not_port t

/-- The common tail of `SanityCheck` never produces a port/protocol
error. -/
theorem sanityRest_not_port (t : Term) :
    sanityRest t ≠ .error .MixedPortandNonPortProtos ∧
    sanityRest t ≠ .error .TermPortProtocolError := by
  unfold sanityRest
  split_ifs
  · exact ⟨by simp, by simp⟩
  · exact sanityIcmpCode_not_port t

/-- C7: for a term whose verbatim, action and filter-term fields let
`SanityCheck` reach the port/protocol check (policy.py:1320-1335): with a
declared port attribute and a protocol outside the port-bearing set, a
strict mix of port-bearing and non-port-bearing protocols fails with
`MixedPortandNonPortProtos` and an entirely non-port-bearing set fails
with `TermPortProtocolError`; a term whose protocol set is empty or
entirely port-bearing raises neither error. -/
theorem c7_theorem :
    (∀ t : Term, t.verbatim = [] → t.action ≠ [] → t.filter_term = none →
      (t.source_port ≠ [] ∨ t.destination_port ≠ [] ∨ t.port ≠ []) →
      (∃ p ∈ t.protocol, p ∉ PROTOS_WITH_PORTS) →
      (∃ p ∈ t.protocol, p ∈ PROTOS_WITH_PORTS) →
      SanityCheck t = .error .MixedPortandNonPortProtos) ∧
    (∀ t : Term, t.verbatim = [] → t.action ≠ [] → t.filter_term = none →
      (t.source_port ≠ [] ∨ t.destination_port ≠ [] ∨ t.port ≠ []) →
      (∃ p ∈ t.protocol, p ∉ PROTOS_WITH_PORTS) →
      (∀ p ∈ t.protocol, p ∉ PROTOS_WITH_PORTS) →
      SanityCheck t = .error .TermPortProtocolError) ∧
    (∀ t : Term, (∀ p ∈ t.protocol, p ∈ PROTOS_WITH_PORTS) →
      SanityCheck t ≠ .error .MixedPortandNonPortProtos ∧
      SanityCheck t ≠ .error .TermPortProtocolError) := by
  refine ⟨?_, ?_, ?_⟩
  · intro t hv ha hf hports hout hin
    have hno : protosNoPorts t ≠ [] := by
      rw [Ne, protosNoPorts, List.filter_eq_nil_iff]
      push_neg
      obtain ⟨p, hp1, hp2⟩ := hout
      exact ⟨p, hp1, by simpa using hp2⟩
    have hwith : protosWithPortsOf t ≠ [] := by
      rw [Ne, protosWithPortsOf, List.filter_eq_nil_iff]
      push_neg
      obtain ⟨p, hp1, hp2⟩ := hin
      exact ⟨p, hp1, by simpa using hp2⟩
    simp [SanityCheck, hv, ha, hf, hno, hports, hwith]
  · intro t hv ha hf hports hout hnone
    have hno : protosNoPorts t ≠ [] := by
      rw [Ne, protosNoPorts, List.filter_eq_nil_iff]
      push_neg
      obtain ⟨p, hp1, hp2⟩ := hout
      exact ⟨p, hp1, by simpa using hp2⟩
    have hwith : protosWithPortsOf t = [] := by
      rw [protosWithPortsOf, List.filter_eq_nil_iff]
      intro p hp
      simpa using hnone p hp
    simp [SanityCheck, hv, ha, hf, hno, hports, hwith]
  · intro t hall
    have hno : protosNoPorts t = [] := by
      rw [protosNoPorts, List.filter_eq_nil_iff]
      intro p hp
      simpa using hall p hp
    unfold SanityCheck
    split_ifs with h1 h2 h3 h4 h5 h6
    · exact ⟨by simp, by simp⟩
    · exact sanityRest_not_port t
    · exact ⟨by simp, by simp⟩
    · exact ⟨by simp, by simp⟩
    · exact absurd h5.1 (by simp [hno])
    · exact absurd h5.1 (by simp [hno])
    · exact sanityRest_not_port t

/-- C7, witness: the three branches at concrete terms — mixed
`icmp`+`tcp` with a port, `icmp` only with a port (the spec example), and
`tcp` only with a port. -/
theorem c7_witness :
    SanityCheck termMixedProtos = .error .MixedPortandNonPortProtos ∧
    SanityCheck termIcmpPort = .error .TermPortProtocolError ∧
    SanityCheck termTcpPort ≠ .error .TermPortProtocolError := by
  refine ⟨?_, ?_, ?_⟩
  · exact c7_theorem.1 termMixedProtos rfl (by decide) rfl (by right; right; decide)
      ⟨"icmp", by decide, by decide⟩ ⟨"tcp", by decide, by decide⟩
  · exact c7_theorem.2.1 termIcmpPort rfl (by decide) rfl (by right; right; decide)
      ⟨"icmp", by decide, by decide⟩ (by decide)
  · exact (c7_theorem.2.2 termTcpPort (by decide)).2

/-! ## Sorting lemmas for `CollapsePortList` (C4, C9) -/

/-- Inserting is a permutation. -/
theorem insertLe_perm (le : α → α → Bool) (a : α) (l : List α) :
    (insertLe le a l).Perm (a :: l) := by
  induction l with
  | nil => exact List.Perm.refl _
  | cons b t ih =>
    unfold insertLe
    split_ifs
    · exact List.Perm.refl _
    · exact (ih.cons b).trans (List.Perm.swap a b t)

/-- Insertion sort is a permutation. -/
theorem sortLe_perm (le : α → α → Bool) (l : List α) : (sortLe le l).Perm l := by
  induction l with
  | nil => exact List.Perm.refl _
  | cons a t ih => exact (insertLe_perm le a (sortLe le t)).trans (ih.cons a)

/-- Inserting into a `le`-chained list keeps it chained, given totality. -/
theorem insertLe_chain (le : α → α → Bool)
    (htot : ∀ a b, le a b = false → le b a = true) (a : α) :
    ∀ l : List α, List.Chain' (fun x y => le x y = true) l →
      List.Chain' (fun x y => le x y = true) (insertLe le a l) := by
  intro l
  induction l with
  | nil => intro _; simp [insertLe]
  | cons b t ih =>
    intro hl
    unfold insertLe
    split_ifs with h
    · exact List.Chain'.cons h hl
    · have hins := ih hl.tail
      cases t with
      | nil =>
        simp only [insertLe]
        exact List.Chain'.cons (htot a b (by simpa using h)) (by simp)
      | cons c t' =>
        unfold insertLe
        unfold insertLe at hins
        split_ifs with h2
        · exact List.Chain'.cons (htot a b (by simpa using h)) (by simpa [h2] using hins)
        · have hbc : le b c = true := (List.chain'_cons.mp hl).1
          exact List.Chain'.cons hbc (by simpa [h2] using hins)

/-- Insertion sort produces a `le`-chained list, given totality. -/
theorem sortLe_chain (le : α → α → Bool)
    (htot : ∀ a b, le a b = false → le b a = true) :
    ∀ l : List α, List.Chain' (fun x y => le x y = true) (sortLe le l) := by
  intro l
  induction l with
  | nil => simp [sortLe]
  | cons a t ih => exact insertLe_chain le htot a (sortLe le t) ih

/-- Inserting below the head is a plain cons. -/
theorem insertLe_of_le_head (le : α → α → Bool) (a : α) (l : List α)
    (h : ∀ b ∈ l.head?, le a b = true) : insertLe le a l = a :: l := by
  cases l with
  | nil => rfl
  | cons b t => exact if_pos (h b rfl)

/-- Insertion sort fixes an already `le`-chained list. -/
theorem sortLe_fix (le : α → α → Bool) :
    ∀ l : List α, List.Chain' (fun x y => le x y = true) l → sortLe le l = l := by
  intro l
  induction l with
  | nil => intro _; rfl
  | cons a t ih =>
    intro h
    show insertLe le a (sortLe le t) = a :: t
    rw [ih h.tail]
    refine insertLe_of_le_head le a t ?_
    intro b hb
    cases t with
    | nil => simp at hb
    | cons c t' =>
      have hcb : c = b := by simpa using hb
      subst hcb
      exact (List.chain'_cons.mp h).1

/-- `pairLe` is total. -/
theorem pairLe_total (a b : Nat × Nat) (h : pairLe a b = false) :
    pairLe b a = true := by
  simp [pairLe] at h ⊢
  omega

/-- The head of a `pairLe`-chained list has the smallest low end. -/
theorem chain_pairLe_head :
    ∀ (l : List (Nat × Nat)) (p : Nat × Nat),
      List.Chain' (fun x y => pairLe x y = true) (p :: l) →
      ∀ q ∈ l, p.1 ≤ q.1 := by
  intro l
  induction l with
  | nil => intro p _ q hq; simp at hq
  | cons r t ih =>
    intro p hp q hq
    have h1 : pairLe p r = true := (List.chain'_cons.mp hp).1
    have hpr : p.1 ≤ r.1 := by simp [pairLe] at h1; omega
    rcases List.mem_cons.mp hq with rfl | hq'
    · exact hpr
    · exact hpr.trans (ih r (List.chain'_cons.mp hp).2 q hq')

/-! ## Coverage preservation of `CollapsePortList` (C4) -/

/-- Coverage of a cons. -/
theorem covers_cons (p : Nat × Nat) (L : List (Nat × Nat)) (x : Nat) :
    portsCover (p :: L) x ↔ (p.1 ≤ x ∧ x ≤ p.2) ∨ portsCover L x := by
  simp [portsCover]

/-- The empty list covers nothing. -/
theorem covers_nil (x : Nat) : ¬ portsCover [] x := by
  simp [portsCover]

/-- Coverage only depends on membership. -/
theorem covers_perm {L L' : List (Nat × Nat)} (h : L.Perm L') (x : Nat) :
    portsCover L x ↔ portsCover L' x := by
  unfold portsCover
  constructor
  · rintro ⟨p, hp, hx⟩; exact ⟨p, h.mem_iff.mp hp, hx⟩
  · rintro ⟨p, hp, hx⟩; exact ⟨p, h.mem_iff.mpr hp, hx⟩

/-- Coverage of a reversed list. -/
theorem covers_reverse (L : List (Nat × Nat)) (x : Nat) :
    portsCover L.reverse x ↔ portsCover L x :=
  covers_perm (List.reverse_perm L) x

/-- Dropping a fully nested candidate loses no coverage. -/
theorem covers_of_nested {l0 h0 pl ph x : Nat} (hlow : l0 ≤ pl) (hge : ph ≤ h0)
    (accT : List (Nat × Nat)) (h : pl ≤ x ∧ x ≤ ph) :
    portsCover ((l0, h0) :: accT) x := by
  rw [covers_cons]
  exact Or.inl ⟨by omega, by omega⟩

/-- Extending the last accepted range to the candidate's high end covers
exactly the union, when the candidate starts at or before `h0 + 1`. -/
theorem covers_extend {l0 h0 pl ph x : Nat} (hlow : l0 ≤ pl)
    (hside : pl ≤ h0 + 1) (hlt : h0 < ph) (accT : List (Nat × Nat)) :
    portsCover ((l0, ph) :: accT) x ↔
      portsCover ((l0, h0) :: accT) x ∨ (pl ≤ x ∧ x ≤ ph) := by
  rw [covers_cons, covers_cons]
  constructor
  · rintro (⟨h1, h2⟩ | hA)
    · by_cases hx : x ≤ h0
      · exact Or.inl (Or.inl ⟨h1, hx⟩)
      · exact Or.inr ⟨by omega, h2⟩
    · exact Or.inl (Or.inr hA)
  · rintro ((⟨h1, h2⟩ | hA) | ⟨h1, h2⟩)
    · exact Or.inl ⟨h1, by omega⟩
    · exact Or.inr hA
    · exact Or.inl ⟨by omega, h2⟩

/-- The accumulation loop preserves coverage: the result covers a port iff
the accumulator or the remaining input covers it.  The input must be
sorted (`pairLe`-chained) and the accumulator head must start no later
than any remaining range. -/
theorem collapseLoop_covers (x : Nat) :
    ∀ (l acc : List (Nat × Nat)),
      List.Chain' (fun a b => pairLe a b = true) l →
      (∀ p ∈ l, ∀ q ∈ acc.head?, q.1 ≤ p.1) →
      (portsCover (collapseLoop acc l) x ↔ portsCover acc x ∨ portsCover l x) := by
  intro l
  induction l with
  | nil =>
    intro acc _ _
    simp only [collapseLoop, covers_reverse]
    exact (iff_of_eq (congrArg _ rfl)).trans (or_iff_left (covers_nil x)).symm
  | cons p rest ih =>
    intro acc hchain hinv
    have hrest : List.Chain' (fun a b => pairLe a b = true) rest := hchain.tail
    have hheadrest : ∀ q ∈ rest, p.1 ≤ q.1 := chain_pairLe_head rest p hchain
    rcases p with ⟨pl, ph⟩
    rcases acc with _ | ⟨⟨l0, h0⟩, accT⟩
    · show portsCover (collapseLoop [(pl, ph)] rest) x ↔ _
      have hinv1 : ∀ q ∈ rest, ∀ r ∈ ([(pl, ph)] : List (Nat × Nat)).head?, r.1 ≤ q.1 := by
        intro q hq r hr
        simp only [List.head?_cons, Option.mem_def, Option.some.injEq] at hr
        subst hr
        exact hheadrest q hq
      rw [ih [(pl, ph)] hrest hinv1]
      simp only [covers_cons]
      have hnil := covers_nil x
      tauto
    · have hlow : l0 ≤ pl := by
        have := hinv (pl, ph) (List.mem_cons_self (pl, ph) rest) (l0, h0) rfl
        simpa using this
      have hinvrest : ∀ q ∈ rest, ∀ r ∈ ((l0, h0) :: accT).head?, r.1 ≤ q.1 := by
        intro q hq r hr
        exact hinv q (List.mem_cons_of_mem _ hq) r hr
      simp only [collapseLoop]
      split_ifs with hb1 hb2 hb3
      · -- nested: drop the candidate
        rw [ih ((l0, h0) :: accT) hrest hinvrest, covers_cons (pl, ph) rest x]
        constructor
        · rintro (hA | hR)
          · exact Or.inl hA
          · exact Or.inr (Or.inr hR)
        · rintro (hA | (hC | hR))
          · exact Or.inl hA
          · exact Or.inl (covers_of_nested hlow hb1 accT hC)
          · exact Or.inr hR
      · -- strict overlap: extend the last accepted range
        have hinv2 : ∀ q ∈ rest, ∀ r ∈ ((l0, ph) :: accT).head?, r.1 ≤ q.1 := by
          intro q hq r hr
          simp only [List.head?_cons, Option.mem_def, Option.some.injEq] at hr
          subst hr
          exact hlow.trans (hheadrest q hq)
        have hside : pl ≤ h0 + 1 := by omega
        have hlt : h0 < ph := by omega
        rw [ih ((l0, ph) :: accT) hrest hinv2, covers_extend hlow hside hlt accT,
          covers_cons (pl, ph) rest x]
        exact or_assoc
      · -- contiguous: extend the last accepted range
        have hinv2 : ∀ q ∈ rest, ∀ r ∈ ((l0, ph) :: accT).head?, r.1 ≤ q.1 := by
          intro q hq r hr
          simp only [List.head?_cons, Option.mem_def, Option.some.injEq] at hr
          subst hr
          exact hlow.trans (hheadrest q hq)
        have hside : pl ≤ h0 + 1 := by omega
        have hlt : h0 < ph := by omega
        rw [ih ((l0, ph) :: accT) hrest hinv2, covers_extend hlow hside hlt accT,
          covers_cons (pl, ph) rest x]
        exact or_assoc
      · -- start a new accepted range
        have hinv2 : ∀ q ∈ rest, ∀ r ∈ ((pl, ph) :: (l0, h0) :: accT).head?, r.1 ≤ q.1 := by
          intro q hq r hr
          simp only [List.head?_cons, Option.mem_def, Option.some.injEq] at hr
          subst hr
          exact hheadrest q hq
        rw [ih ((pl, ph) :: (l0, h0) :: accT) hrest hinv2,
          covers_cons (pl, ph) ((l0, h0) :: accT) x,
          covers_cons (pl, ph) rest x]
        tauto

/-- C4, counterexample.  The overlap test of the merge loop is strict
(`port[0] < ret_ports[-1][1] < port[1]`, policy.py:1460), so two ranges
sharing exactly a boundary point are not merged, and the output is not
pairwise non-overlapping: both (10,20) and (20,30) remain and both cover
port 20. -/
theorem c4_counterexample :
    CollapsePortList [(10, 20), (20, 30)] = [(10, 20), (20, 30)] ∧
    CollapsePortList [(10, 20), (20, 30)] ≠ [(10, 30)] := by
  decide

/-- C4, amended: `CollapsePortList` sorts the ranges ascending by
`(low, high)` and merges a candidate into the last accepted range when it
is fully nested, strictly overlapping (`last.high` strictly between the
candidate's bounds) or contiguous; the result covers exactly the same set
of ports, and the spec's round-trip examples hold — but a candidate
sharing only its low boundary with the last accepted high
(`candidate.low = last.high < candidate.high`) is not merged, so the
returned ranges may overlap at shared endpoints. -/
theorem c4_amended :
    (∀ (ports : List (Nat × Nat)) (x : Nat),
      portsCover (CollapsePortList ports) x ↔ portsCover ports x) ∧
    CollapsePortList [(80, 80), (53, 53), (1024, 65535)]
      = [(53, 53), (80, 80), (1024, 65535)] ∧
    CollapsePortList [(10, 20), (21, 30)] = [(10, 30)] ∧
    CollapsePortList [(10, 20), (15, 30)] = [(10, 30)] ∧
    CollapsePortList [(10, 20), (22, 30)] = [(10, 20), (22, 30)] ∧
    CollapsePortList [(10, 20), (20, 30)] = [(10, 20), (20, 30)] := by
  refine ⟨?_, by decide, by decide, by decide, by decide, by decide⟩
  intro ports x
  unfold CollapsePortList
  rw [collapseLoop_covers x (sortPairs ports) []
      (sortLe_chain pairLe pairLe_total ports) (by intro p _ q hq; simp at hq)]
  have hperm : (sortPairs ports).Perm ports := sortLe_perm pairLe ports
  rw [covers_perm hperm x]
  exact or_iff_right (covers_nil x)

/-! ## Idempotence of `CollapsePortList` (C9) -/

/-- Non-mergeable consecutive ranges are in particular `pairLe`-ordered. -/
theorem noMerge_pairLe {a b : Nat × Nat} (h : noMerge a b) : pairLe a b = true := by
  obtain ⟨h1, h2, h3, h4⟩ := h
  simp [pairLe]
  omega

/-- The accumulation loop leaves consecutive output ranges non-mergeable,
for a sorted input. -/
theorem collapseLoop_chain :
    ∀ (l acc : List (Nat × Nat)),
      List.Chain' (fun a b => pairLe a b = true) l →
      (∀ p ∈ l, ∀ q ∈ acc.head?, q.1 ≤ p.1) →
      List.Chain' (fun a b => noMerge b a) acc →
      List.Chain' noMerge (collapseLoop acc l) := by
  intro l
  induction l with
  | nil =>
    intro acc _ _ hacc
    have heq : collapseLoop acc [] = acc.reverse := by simp only [collapseLoop]
    rw [heq, List.chain'_reverse]
    exact hacc
  | cons p rest ih =>
    intro acc hchain hinv hacc
    have hrest := hchain.tail
    have hheadrest := chain_pairLe_head rest p hchain
    rcases p with ⟨pl, ph⟩
    rcases acc with _ | ⟨⟨l0, h0⟩, accT⟩
    · refine ih [(pl, ph)] hrest ?_ (List.chain'_singleton _)
      intro q hq r hr
      simp only [List.head?_cons, Option.mem_def, Option.some.injEq] at hr
      subst hr
      exact hheadrest q hq
    · have hlow : l0 ≤ pl := by
        have := hinv (pl, ph) (List.mem_cons_self _ _) (l0, h0) rfl
        simpa using this
      simp only [collapseLoop]
      split_ifs with hb1 hb2 hb3
      · exact ih ((l0, h0) :: accT) hrest
          (fun q hq => hinv q (List.mem_cons_of_mem _ hq)) hacc
      · refine ih ((l0, ph) :: accT) hrest ?_ ?_
        · intro q hq r hr
          simp only [List.head?_cons, Option.mem_def, Option.some.injEq] at hr
          subst hr
          exact hlow.trans (hheadrest q hq)
        · cases accT with
          | nil => exact List.chain'_singleton _
          | cons y accT' =>
            have hrel : noMerge y (l0, h0) := (List.chain'_cons.mp hacc).1
            have s1 : y.1 ≤ l0 := hrel.1
            have s2 : y.2 < h0 := hrel.2.1
            have s3 : y.2 ≤ l0 := hrel.2.2.1
            have s4 : y.2 + 1 ≠ l0 := hrel.2.2.2
            refine List.chain'_cons.mpr ⟨⟨s1, show y.2 < ph by omega, s3, s4⟩,
              (List.chain'_cons.mp hacc).2⟩
      · refine ih ((l0, ph) :: accT) hrest ?_ ?_
        · intro q hq r hr
          simp only [List.head?_cons, Option.mem_def, Option.some.injEq] at hr
          subst hr
          exact hlow.trans (hheadrest q hq)
        · cases accT with
          | nil => exact List.chain'_singleton _
          | cons y accT' =>
            have hrel : noMerge y (l0, h0) := (List.chain'_cons.mp hacc).1
            have s1 : y.1 ≤ l0 := hrel.1
            have s2 : y.2 < h0 := hrel.2.1
            have s3 : y.2 ≤ l0 := hrel.2.2.1
            have s4 : y.2 + 1 ≠ l0 := hrel.2.2.2
            refine List.chain'_cons.mpr ⟨⟨s1, show y.2 < ph by omega, s3, s4⟩,
              (List.chain'_cons.mp hacc).2⟩
      · refine ih ((pl, ph) :: (l0, h0) :: accT) hrest ?_ ?_
        · intro q hq r hr
          simp only [List.head?_cons, Option.mem_def, Option.some.injEq] at hr
          subst hr
          exact hheadrest q hq
        · refine List.chain'_cons.mpr ⟨?_, hacc⟩
          exact ⟨hlow, show h0 < ph by omega, show h0 ≤ pl by omega,
            show h0 + 1 ≠ pl by omega⟩

/-- The accumulation loop is the identity past a head whose chain is
already non-mergeable. -/
theorem collapseLoop_fix :
    ∀ (rest : List (Nat × Nat)) (x : Nat × Nat) (acc : List (Nat × Nat)),
      List.Chain' noMerge (x :: rest) →
      collapseLoop (x :: acc) rest = (x :: acc).reverse ++ rest := by
  intro rest
  induction rest with
  | nil => intro x acc _; simp [collapseLoop]
  | cons p rest' ih =>
    intro x acc h
    obtain ⟨hx, hchain'⟩ := List.chain'_cons.mp h
    rcases x with ⟨l0, h0⟩
    rcases p with ⟨pl, ph⟩
    have s1 : l0 ≤ pl := hx.1
    have s2 : h0 < ph := hx.2.1
    have s3 : h0 ≤ pl := hx.2.2.1
    have s4 : h0 + 1 ≠ pl := hx.2.2.2
    simp only [collapseLoop]
    rw [if_neg (by omega), if_neg (by omega), if_neg (by omega)]
    rw [ih (pl, ph) ((l0, h0) :: acc) hchain']
    simp

/-- `CollapsePortList` fixes any list whose consecutive ranges are
non-mergeable. -/
theorem collapsePortList_fixpoint (out : List (Nat × Nat))
    (h : List.Chain' noMerge out) : CollapsePortList out = out := by
  unfold CollapsePortList
  have hsorted : sortPairs out = out :=
    sortLe_fix pairLe out (h.imp fun a b hab => noMerge_pairLe hab)
  rw [hsorted]
  cases out with
  | nil => rfl
  | cons x rest =>
    have h1 : collapseLoop [] (x :: rest) = collapseLoop [x] rest := by
      simp only [collapseLoop]
    rw [h1, collapseLoop_fix rest x [] h]
    simp

/-- C9: normalization is idempotent — `CollapsePortList` applied to its own
output returns the output unchanged, and re-running term translation on a
term already marked `translated` is a no-op (`Policy._TranslateTerms`
skips it with `continue`). -/
theorem c9_theorem :
    (∀ ports : List (Nat × Nat),
      CollapsePortList (CollapsePortList ports) = CollapsePortList ports) ∧
    (∀ (env : TranslateEnv) (t : Term), t.translated = true →
      translateTerm env t = .ok t) := by
  constructor
  · intro ports
    apply collapsePortList_fixpoint
    exact collapseLoop_chain (sortPairs ports) []
      (sortLe_chain pairLe pairLe_total ports)
      (by intro p hp q hq; simp at hq) List.chain'_nil
  · intro env t ht
    simp [translateTerm, ht]

/-- C9, witness: a term marked `translated` passes through translation
unchanged. -/
theorem c9_witness :
    termTranslated.translated = true ∧
    translateTerm envId termTranslated = .ok termTranslated :=
  ⟨rfl, c9_theorem.2 envId termTranslated rfl⟩

/-! ## C8: unrecognized characters in the lexer -/

/-- C8, counterexample.  The claim says an unrecognized character is a
fatal lexical error; but `t_error` (policy.py:2132) prints the report and
calls `t.lexer.skip(1)`, so scanning continues: with a rule set that only
recognizes `a`, the input `a$a` still produces both `A` tokens after
reporting the illegal `$`, instead of failing. -/
theorem c8_counterexample :
    lexLoop demoMatch ['a', '$', 'a'] 1 = (["A", "A"], [('$', 1)]) := by
  simp [lexLoop, demoMatch, t_error]

/-- C8, amended: an unrecognized character is reported with the offending
character and line number and then skipped; tokenization continues on the
remaining input (and never fails). -/
theorem c8_amended (m : List Char → Option (String × Nat × Nat)) (c : Char)
    (rest : List Char) (line : Nat) (h : m (c :: rest) = none) :
    lexLoop m (c :: rest) line =
      ((lexLoop m rest line).1, (c, line) :: (lexLoop m rest line).2) := by
  rw [lexLoop]
  simp [h, t_error]

/-- C8, witness: the amended theorem applied to the empty rule set on the
one-character input `$`. -/
theorem c8_witness :
    (fun _ => (none : Option (String × Nat × Nat))) ['$'] = none ∧
    lexLoop (fun _ => none) ['$'] 1 = ([], [('$', 1)]) :=
  ⟨rfl, by rw [c8_amended (fun _ => none) '$' [] 1 rfl]; simp [lexLoop]⟩

/-! ## C5: the shading pass on a two-term list -/

/-- C5: shading analysis over `[A, B]` flags `B` as shaded by `A` exactly
when `A.__contains__(B)` holds and `A`'s action list does not include
`next` (policy.py:281-286). -/
theorem c5_theorem (ex : List Addr → List Addr → List Addr) (A B : Term) :
    (DetectShading ex [A, B]).1 =
      if (containsTerm ex A B).1 = true ∧ "next" ∉ A.action then
        [(B.name, A.name)]
      else [] := by
  have hcond : ((containsTerm ex A B).1 = true ∧ ¬ A.action.contains "next" = true) ↔
      ((containsTerm ex A B).1 = true ∧ "next" ∉ A.action) := by
    simp [List.contains, List.elem_iff]
  simp only [DetectShading, List.length_cons, List.length_nil, List.length_singleton,
    List.range_succ, List.range_zero, List.foldl_append,
    List.foldl_cons, List.foldl_nil, List.getD_eq_getElem?_getD,
    List.getElem?_cons_zero, List.getElem?_cons_succ, Option.getD_some]
  rw [if_congr hcond rfl rfl]
  split_ifs <;> rfl

/-! ## C10: fields ignored by `Term.__eq__` -/

/-- `listEqWith f` holds reflexively when `f` does. -/
theorem listEqWith_refl (f : α → α → Bool) (hf : ∀ a, f a a = true) :
    ∀ l : List α, listEqWith f l l = true := by
  intro l
  induction l with
  | nil => rfl
  | cons a l ih => simp [listEqWith, hf a, ih]

/-- C10: `Term.__eq__` never inspects `name`, `comment`, `owner`,
`routing_instance`, `counter`, `priority`, `dscp_set`, `dscp_match`,
`dscp_except`, `restrict_address_family`, `address_exclude`,
`target_resources`, `target_service_accounts` or `loss_priority`, so two
terms differing only in those fields compare equal, and `Policy.__eq__`
(pairwise on filters) inherits this. -/
theorem c10_theorem (t : Term) (h : Header) (n : String) (cm : List String)
    (ow ri ct : Option String) (pr : Option Nat) (ds : Option String)
    (dm de : List String) (raf : Option String) (ae : List Addr)
    (tr tsa : List String) (lp : Option String) :
    termEq t (replaceIgnoredFields t n cm ow ri ct pr ds dm de raf ae tr tsa lp)
      = true ∧
    policyEq ⟨[(h, [t])]⟩
      ⟨[(h, [replaceIgnoredFields t n cm ow ri ct pr ds dm de raf ae tr tsa lp])]⟩
      = true := by
  have hteq : termEq t
      (replaceIgnoredFields t n cm ow ri ct pr ds dm de raf ae tr tsa lp) = true := by
    simp [termEq, replaceIgnoredFields]
  refine ⟨hteq, ?_⟩
  have hh : headerEq h h = true := by
    simp [headerEq]
    exact listEqWith_refl targetEq (fun a => by simp [targetEq]) h.target
  simp [policyEq, listEqWith, hh, hteq]

end Aerleon
